import Mathlib

/-!
Verification of the zero-trust FastAPI demo: the token issuer
(`services/auth_service/main.py`) and the policy enforcement point
(`services/orders_api/main.py`).  Machine times are epoch seconds (`Nat`).
-/

namespace ZeroTrust

/-- Configuration constants shared by both services
(auth_service/main.py lines 11-15, orders_api/main.py lines 12-15). -/
def JWT_ISSUER : String := "demo-auth"

def JWT_AUDIENCE : String := "orders-api"

def JWT_SECRET : String := "dev-secret-change-me"

def JWT_ALG : String := "HS256"

def JWT_TTL_SECONDS : Nat := 10 * 60

/-- The role literal of `LoginRequest` (`Literal["reader", "admin"]`,
auth_service/main.py line 20). -/
inductive Role where
  | reader
  | admin
deriving DecidableEq, Repr

def Role.toString : Role → String
  | Role.reader => "reader"
  | Role.admin => "admin"

/-- The JWT payload minted by the issuer (auth_service/main.py lines 44-54):
issuer, audience, issued-at, expires-at, subject, role, scopes, tenant. -/
structure ClaimSet where
  iss : String
  aud : String
  iat : Nat
  exp : Nat
  sub : String
  role : String
  scp : List String
  tenant : String
deriving DecidableEq, Repr

/-- Modelled from the spec: the token wire format produced by the external
`jose` library (not under src/).  Per spec section 3, a token is an opaque
signed serialization of a claim set together with the secret and algorithm
used to sign it; a byte string that is not such a serialization is
malformed. -/
inductive Token where
  | signed (claims : ClaimSet) (secret : String) (alg : String)
  | malformed
deriving DecidableEq, Repr

/-- Verification failures of the token codec (spec section 4.1). -/
inductive VerificationError where
  | badSignature
  | invalidClaims
  | malformed
deriving DecidableEq, Repr

/-- Modelled from the spec: `jose.jwt.encode` (external library, not under
src/).  Per spec section 4.1, `encode` serializes the claims and signs the
payload with the secret and algorithm. -/
def jwt_encode (claims : ClaimSet) (secret : String) (alg : String) : Token :=
  Token.signed claims secret alg

/-- Modelled from the spec: `jose.jwt.decode` (external library, not under
src/).  Per spec section 4.1, decode recomputes the signature (a signature
mismatch fails with BadSignature), then validates issuer, audience and
expiry (a mismatched issuer or audience, or `now > expires-at`, fails with
InvalidClaims); a malformed structure fails with Malformed. -/
def jwt_decode (tok : Token) (secret : String) (alg : String)
    (audience : String) (issuer : String) (now : Nat) :
    Except VerificationError ClaimSet :=
  match tok with
  | Token.malformed => Except.error VerificationError.malformed
  | Token.signed claims s a =>
    if s = secret ∧ a = alg then
      if claims.iss = issuer ∧ claims.aud = audience ∧ ¬ (now > claims.exp) then
        Except.ok claims
      else
        Except.error VerificationError.invalidClaims
    else
      Except.error VerificationError.badSignature

/-- An HTTPException raised by either service: status code and detail. -/
structure HTTPError where
  status_code : Nat
  detail : String
deriving DecidableEq, Repr

/-- The validated login body (auth_service/main.py lines 17-20). -/
structure LoginRequest where
  username : String
  password : String
  role : Role
deriving DecidableEq, Repr

/-- The raw JSON body of a POST /token request before pydantic validation:
the role field is optional and, when present, an arbitrary string. -/
structure RawLoginBody where
  username : String
  password : String
  role : Option String
deriving DecidableEq, Repr

/-- Pydantic validation error (a 422 response produced before the endpoint
body runs). -/
inductive ValidationError where
  | invalidRole
deriving DecidableEq, Repr

/-- Pydantic validation of `LoginRequest` (auth_service/main.py lines
17-20): a missing role defaults to "reader"; a role outside the literal set
is rejected. -/
def parseLoginRequest (raw : RawLoginBody) : Except ValidationError LoginRequest :=
  match raw.role with
  | none => Except.ok ⟨raw.username, raw.password, Role.reader⟩
  | some s =>
    if s = "reader" then Except.ok ⟨raw.username, raw.password, Role.reader⟩
    else if s = "admin" then Except.ok ⟨raw.username, raw.password, Role.admin⟩
    else Except.error ValidationError.invalidRole

/-- Scope derivation (auth_service/main.py line 42):
`["orders:read"] if req.role == "reader" else ["orders:read", "orders:write"]`. -/
def scopesFor (role : Role) : List String :=
  if role = Role.reader then ["orders:read"] else ["orders:read", "orders:write"]

/-- The payload dict built by the token endpoint
(auth_service/main.py lines 41-54). -/
def mintPayload (req : LoginRequest) (now : Nat) : ClaimSet :=
  { iss := JWT_ISSUER
    aud := JWT_AUDIENCE
    iat := now
    exp := now + JWT_TTL_SECONDS
    sub := req.username
    role := req.role.toString
    scp := scopesFor req.role
    tenant := "demo-tenant" }

/-- The issuance response (auth_service/main.py line 57). -/
structure TokenResponse where
  access_token : Token
  token_type : String
  expires_in : Nat
deriving DecidableEq, Repr

/-- The POST /token endpoint body (auth_service/main.py lines 35-57):
reject any password other than "pass" with 401, otherwise mint and sign the
claim set and return it with type "bearer" and the TTL. -/
def token (req : LoginRequest) (now : Nat) : Except HTTPError TokenResponse :=
  if req.password ≠ "pass" then
    Except.error ⟨401, "invalid credentials"⟩
  else
    Except.ok ⟨jwt_encode (mintPayload req now) JWT_SECRET JWT_ALG, "bearer", JWT_TTL_SECONDS⟩

/-- The outcome of a POST /token request at the HTTP boundary: pydantic
validation failure (422), an HTTPException from the endpoint body, or the
token response. -/
inductive TokenEndpointResult where
  | ok (resp : TokenResponse)
  | validationError
  | httpError (e : HTTPError)
deriving DecidableEq, Repr

/-- The full issuance boundary: pydantic validation, then the endpoint
body. -/
def handle_token (raw : RawLoginBody) (now : Nat) : TokenEndpointResult :=
  match parseLoginRequest raw with
  | Except.error _ => TokenEndpointResult.validationError
  | Except.ok req =>
    match token req now with
    | Except.error e => TokenEndpointResult.httpError e
    | Except.ok resp => TokenEndpointResult.ok resp

/-- `require_jwt` (orders_api/main.py lines 49-64): 401 on a missing bearer
token; decode with the shared secret, algorithm, audience and issuer; any
decode failure collapses to a single 401 "invalid token". -/
def require_jwt (creds : Option Token) (now : Nat) : Except HTTPError ClaimSet :=
  match creds with
  | none => Except.error ⟨401, "missing bearer token"⟩
  | some tok =>
    match jwt_decode tok JWT_SECRET JWT_ALG JWT_AUDIENCE JWT_ISSUER now with
    | Except.ok payload => Except.ok payload
    | Except.error _ => Except.error ⟨401, "invalid token"⟩

/-- `require_scope` (orders_api/main.py lines 66-72): after `require_jwt`,
403 when the required scope is not among the token scopes. -/
def require_scope (scope : String) (creds : Option Token) (now : Nat) :
    Except HTTPError ClaimSet :=
  match require_jwt creds now with
  | Except.error e => Except.error e
  | Except.ok user =>
    if scope ∈ user.scp then Except.ok user
    else Except.error ⟨403, "missing scope: " ++ scope⟩

/-- `require_role` (orders_api/main.py lines 74-79): after `require_jwt`,
403 unless the token role equals the required role exactly. -/
def require_role (role : String) (creds : Option Token) (now : Nat) :
    Except HTTPError ClaimSet :=
  match require_jwt creds now with
  | Except.error e => Except.error e
  | Except.ok user =>
    if user.role = role then Except.ok user
    else Except.error ⟨403, "requires role: " ++ role⟩

/-- `require_context` (orders_api/main.py lines 81-92): 403 unless the
X-Device-Trust header is exactly "managed"; then 403 if the X-Risk header
is exactly "high"; otherwise allow.  Absent headers are `none`. -/
def require_context (x_device_trust : Option String) (x_risk : Option String) :
    Except HTTPError Bool :=
  if x_device_trust ≠ some "managed" then
    Except.error ⟨403, "device not compliant (expected X-Device-Trust: managed)"⟩
  else if x_risk = some "high" then
    Except.error ⟨403, "risk too high (expected X-Risk != high)"⟩
  else
    Except.ok true

/-- An order of the in-memory list (orders_api/main.py lines 23-26).
The source stores totals as decimal literals (42.50, ...); they are
represented here in cents. -/
structure Order where
  id : String
  total_cents : Nat
deriving DecidableEq, Repr

/-- The initial in-memory ORDERS list (orders_api/main.py lines 23-26). -/
def ORDERS_INIT : List Order := [⟨"A100", 4250⟩, ⟨"B200", 1337⟩]

/-- An inbound enforcement request: optional bearer token and the two
contextual headers. -/
structure EnforcementRequest where
  creds : Option Token
  x_device_trust : Option String
  x_risk : Option String
deriving DecidableEq, Repr

/-- The caller block echoed by GET /orders (orders_api/main.py line 100). -/
structure CallerInfo where
  sub : String
  role : String
  scp : List String
  tenant : String
deriving DecidableEq, Repr

/-- The GET /orders response (orders_api/main.py lines 99-102). -/
structure ListOrdersResponse where
  caller : CallerInfo
  orders : List Order
deriving DecidableEq, Repr

/-- Zero-pad a natural number to width 3, as the format `03d` does. -/
def pad3 (n : Nat) : String :=
  let s := Nat.repr n
  if s.length < 3 then String.mk (List.replicate (3 - s.length) '0') ++ s else s

/-- The POST /orders response (orders_api/main.py line 112). -/
structure CreateOrderResponse where
  ok : Bool
  created : String
  created_by : String
deriving DecidableEq, Repr

/-- The GET /admin/audit response (orders_api/main.py lines 120-128). -/
structure AuditResponse where
  ok : Bool
  message : String
  caller_sub : String
  caller_role : String
  events : List (String × Nat)
deriving DecidableEq, Repr

/-- GET /orders (orders_api/main.py lines 94-102): dependencies resolve in
declaration order, `require_scope "orders:read"` then `require_context`;
the first failure is the response. -/
def list_orders (req : EnforcementRequest) (now : Nat) (orders : List Order) :
    Except HTTPError ListOrdersResponse :=
  match require_scope "orders:read" req.creds now with
  | Except.error e => Except.error e
  | Except.ok user =>
    match require_context req.x_device_trust req.x_risk with
    | Except.error e => Except.error e
    | Except.ok _ =>
      Except.ok ⟨⟨user.sub, user.role, user.scp, user.tenant⟩, orders⟩

/-- POST /orders (orders_api/main.py lines 104-112): dependencies resolve
in declaration order, `require_scope "orders:write"` then `require_context`;
on success a new order `X{len+1:03d}` with total 9.99 is appended.  Returns
the response together with the ORDERS list after the call. -/
def create_order (req : EnforcementRequest) (now : Nat) (orders : List Order) :
    Except HTTPError CreateOrderResponse × List Order :=
  match require_scope "orders:write" req.creds now with
  | Except.error e => (Except.error e, orders)
  | Except.ok user =>
    match require_context req.x_device_trust req.x_risk with
    | Except.error e => (Except.error e, orders)
    | Except.ok _ =>
      let new_id := "X" ++ pad3 (orders.length + 1)
      (Except.ok ⟨true, new_id, user.sub⟩, orders ++ [⟨new_id, 999⟩])

/-- GET /admin/audit (orders_api/main.py lines 114-128): dependencies
resolve in declaration order, `require_role "admin"` then
`require_context`. -/
def admin_audit (req : EnforcementRequest) (now : Nat) :
    Except HTTPError AuditResponse :=
  match require_role "admin" req.creds now with
  | Except.error e => Except.error e
  | Except.ok user =>
    match require_context req.x_device_trust req.x_risk with
    | Except.error e => Except.error e
    | Except.ok _ =>
      Except.ok ⟨true, "audit log access granted", user.sub, user.role,
        [("orders_read", 123), ("orders_write", 7)]⟩

/-- A concrete reader token issued at time 0, for concrete evaluations. -/
def sampleReaderToken : Token :=
  jwt_encode (mintPayload ⟨"ola", "pass", Role.reader⟩ 0) JWT_SECRET JWT_ALG

/-- A concrete admin token issued at time 0, for concrete evaluations. -/
def sampleAdminToken : Token :=
  jwt_encode (mintPayload ⟨"ola", "pass", Role.admin⟩ 0) JWT_SECRET JWT_ALG

/-- Every error raised by `require_jwt` carries status 401. -/
theorem require_jwt_error_status (creds : Option Token) (now : Nat) (e : HTTPError)
    (h : require_jwt creds now = Except.error e) : e.status_code = 401 := by
  cases creds with
  | none => simp [require_jwt] at h; subst h; rfl
  | some tok =>
    cases hd : jwt_decode tok JWT_SECRET JWT_ALG JWT_AUDIENCE JWT_ISSUER now with
    | ok p => simp [require_jwt, hd] at h
    | error er => simp [require_jwt, hd] at h; subst h; rfl

/-- Every error raised by `require_context` carries status 403. -/
theorem require_context_error_status (d r : Option String) (e : HTTPError)
    (h : require_context d r = Except.error e) : e.status_code = 403 := by
  unfold require_context at h
  by_cases hd : d ≠ some "managed"
  · simp only [if_pos hd] at h
    simp at h; subst h; rfl
  · simp only [if_neg hd] at h
    by_cases hr : r = some "high"
    · simp only [if_pos hr] at h
      simp at h; subst h; rfl
    · simp only [if_neg hr] at h
      simp at h

/-- An error raised by `require_scope` is either the underlying
`require_jwt` error or the 403 missing-scope error after a successful
authentication. -/
theorem require_scope_error_split (scope : String) (creds : Option Token)
    (now : Nat) (e : HTTPError)
    (h : require_scope scope creds now = Except.error e) :
    require_jwt creds now = Except.error e ∨
    ((∃ u, require_jwt creds now = Except.ok u) ∧
      e = ⟨403, "missing scope: " ++ scope⟩) := by
  unfold require_scope at h
  cases hj : require_jwt creds now with
  | error ej => rw [hj] at h; simp at h; subst h; exact Or.inl rfl
  | ok user =>
    rw [hj] at h
    by_cases hs : scope ∈ user.scp
    · simp [hs] at h
    · simp [hs] at h
      exact Or.inr ⟨⟨user, rfl⟩, h.symm⟩

/-- An error raised by `require_role` is either the underlying
`require_jwt` error or the 403 role error after a successful
authentication. -/
theorem require_role_error_split (role : String) (creds : Option Token)
    (now : Nat) (e : HTTPError)
    (h : require_role role creds now = Except.error e) :
    require_jwt creds now = Except.error e ∨
    ((∃ u, require_jwt creds now = Except.ok u) ∧
      e = ⟨403, "requires role: " ++ role⟩) := by
  unfold require_role at h
  cases hj : require_jwt creds now with
  | error ej => rw [hj] at h; simp at h; subst h; exact Or.inl rfl
  | ok user =>
    rw [hj] at h
    by_cases hs : user.role = role
    · simp [hs] at h
    · simp [hs] at h
      exact Or.inr ⟨⟨user, rfl⟩, h.symm⟩

/-- Error analysis for GET /orders: a denial is either the authentication
error (status 401) or, after a successful authentication, a 403. -/
theorem list_orders_error_analysis (req : EnforcementRequest) (now : Nat)
    (orders : List Order) (e : HTTPError)
    (h : list_orders req now orders = Except.error e) :
    (require_jwt req.creds now = Except.error e ∧ e.status_code = 401) ∨
    ((∃ u, require_jwt req.creds now = Except.ok u) ∧ e.status_code = 403) := by
  unfold list_orders at h
  cases hs : require_scope "orders:read" req.creds now with
  | error es =>
    rw [hs] at h; simp at h; subst h
    rcases require_scope_error_split _ _ _ _ hs with hj | ⟨hu, he⟩
    · exact Or.inl ⟨hj, require_jwt_error_status _ _ _ hj⟩
    · exact Or.inr ⟨hu, by rw [he]⟩
  | ok u =>
    rw [hs] at h
    cases hc : require_context req.x_device_trust req.x_risk with
    | error ec =>
      rw [hc] at h; simp at h; subst h
      have hu : ∃ u2, require_jwt req.creds now = Except.ok u2 := by
        unfold require_scope at hs
        cases hj : require_jwt req.creds now with
        | error ej => rw [hj] at hs; simp at hs
        | ok u2 => exact ⟨u2, rfl⟩
      exact Or.inr ⟨hu, require_context_error_status _ _ _ hc⟩
    | ok b => rw [hc] at h; simp at h

/-- Error analysis for POST /orders. -/
theorem create_order_error_analysis (req : EnforcementRequest) (now : Nat)
    (orders : List Order) (e : HTTPError)
    (h : (create_order req now orders).1 = Except.error e) :
    (require_jwt req.creds now = Except.error e ∧ e.status_code = 401) ∨
    ((∃ u, require_jwt req.creds now = Except.ok u) ∧ e.status_code = 403) := by
  unfold create_order at h
  cases hs : require_scope "orders:write" req.creds now with
  | error es =>
    rw [hs] at h; simp at h; subst h
    rcases require_scope_error_split _ _ _ _ hs with hj | ⟨hu, he⟩
    · exact Or.inl ⟨hj, require_jwt_error_status _ _ _ hj⟩
    · exact Or.inr ⟨hu, by rw [he]⟩
  | ok u =>
    rw [hs] at h
    cases hc : require_context req.x_device_trust req.x_risk with
    | error ec =>
      rw [hc] at h; simp at h; subst h
      have hu : ∃ u2, require_jwt req.creds now = Except.ok u2 := by
        unfold require_scope at hs
        cases hj : require_jwt req.creds now with
        | error ej => rw [hj] at hs; simp at hs
        | ok u2 => exact ⟨u2, rfl⟩
      exact Or.inr ⟨hu, require_context_error_status _ _ _ hc⟩
    | ok b => rw [hc] at h; simp at h

/-- Error analysis for GET /admin/audit. -/
theorem admin_audit_error_analysis (req : EnforcementRequest) (now : Nat)
    (e : HTTPError) (h : admin_audit req now = Except.error e) :
    (require_jwt req.creds now = Except.error e ∧ e.status_code = 401) ∨
    ((∃ u, require_jwt req.creds now = Except.ok u) ∧ e.status_code = 403) := by
  unfold admin_audit at h
  cases hs : require_role "admin" req.creds now with
  | error es =>
    rw [hs] at h; simp at h; subst h
    rcases require_role_error_split _ _ _ _ hs with hj | ⟨hu, he⟩
    · exact Or.inl ⟨hj, require_jwt_error_status _ _ _ hj⟩
    · exact Or.inr ⟨hu, by rw [he]⟩
  | ok u =>
    rw [hs] at h
    cases hc : require_context req.x_device_trust req.x_risk with
    | error ec =>
      rw [hc] at h; simp at h; subst h
      have hu : ∃ u2, require_jwt req.creds now = Except.ok u2 := by
        unfold require_role at hs
        cases hj : require_jwt req.creds now with
        | error ej => rw [hj] at hs; simp at hs
        | ok u2 => exact ⟨u2, rfl⟩
      exact Or.inr ⟨hu, require_context_error_status _ _ _ hc⟩
    | ok b => rw [hc] at h; simp at h

/-- Claim C1: for every credential accepted by the issuer (password "pass",
any username, role reader or admin), encoding the minted claim set and then
decoding the resulting token with the same secret, algorithm, expected
issuer and expected audience, at any time strictly before expires-at,
succeeds and returns exactly the subject, role, scopes, issuer, audience
and tenant that were encoded. -/
theorem C1_issue_decode_roundtrip (u : String) (r : Role) (t0 now : Nat)
    (hnow : now < t0 + JWT_TTL_SECONDS) :
    ∃ resp : TokenResponse,
      token ⟨u, "pass", r⟩ t0 = Except.ok resp ∧
      jwt_decode resp.access_token JWT_SECRET JWT_ALG JWT_AUDIENCE JWT_ISSUER now =
        Except.ok (mintPayload ⟨u, "pass", r⟩ t0) ∧
      (mintPayload ⟨u, "pass", r⟩ t0).sub = u ∧
      (mintPayload ⟨u, "pass", r⟩ t0).role = r.toString ∧
      (mintPayload ⟨u, "pass", r⟩ t0).scp = scopesFor r ∧
      (mintPayload ⟨u, "pass", r⟩ t0).iss = JWT_ISSUER ∧
      (mintPayload ⟨u, "pass", r⟩ t0).aud = JWT_AUDIENCE ∧
      (mintPayload ⟨u, "pass", r⟩ t0).tenant = "demo-tenant" := by
  refine ⟨⟨jwt_encode (mintPayload ⟨u, "pass", r⟩ t0) JWT_SECRET JWT_ALG,
    "bearer", JWT_TTL_SECONDS⟩, ?_, ?_, rfl, rfl, rfl, rfl, rfl, rfl⟩
  · simp [token]
  · have h : ¬ (now > t0 + JWT_TTL_SECONDS) := by omega
    simp [jwt_encode, jwt_decode, mintPayload, h]

/-- Witness for C1 at a concrete input. -/
theorem C1_issue_decode_roundtrip_witness :
    (100 : Nat) < 0 + JWT_TTL_SECONDS ∧
    ∃ resp : TokenResponse,
      token ⟨"ola", "pass", Role.reader⟩ 0 = Except.ok resp ∧
      jwt_decode resp.access_token JWT_SECRET JWT_ALG JWT_AUDIENCE JWT_ISSUER 100 =
        Except.ok (mintPayload ⟨"ola", "pass", Role.reader⟩ 0) ∧
      (mintPayload ⟨"ola", "pass", Role.reader⟩ 0).sub = "ola" ∧
      (mintPayload ⟨"ola", "pass", Role.reader⟩ 0).role = Role.reader.toString ∧
      (mintPayload ⟨"ola", "pass", Role.reader⟩ 0).scp = scopesFor Role.reader ∧
      (mintPayload ⟨"ola", "pass", Role.reader⟩ 0).iss = JWT_ISSUER ∧
      (mintPayload ⟨"ola", "pass", Role.reader⟩ 0).aud = JWT_AUDIENCE ∧
      (mintPayload ⟨"ola", "pass", Role.reader⟩ 0).tenant = "demo-tenant" :=
  ⟨by decide, C1_issue_decode_roundtrip "ola" Role.reader 0 100 (by decide)⟩

/-- Claim C2: the scopes placed in a token are a pure function of the
requested role alone: reader yields exactly ["orders:read"], admin yields
exactly ["orders:read", "orders:write"]; no other scope value ever appears,
and no other input (username, password, time) influences the scope set. -/
theorem C2_scopes_pure_function_of_role :
    scopesFor Role.reader = ["orders:read"] ∧
    scopesFor Role.admin = ["orders:read", "orders:write"] ∧
    (∀ req now, (mintPayload req now).scp = scopesFor req.role) ∧
    (∀ r s, s ∈ scopesFor r → s = "orders:read" ∨ s = "orders:write") ∧
    (∀ req₁ req₂ now₁ now₂, req₁.role = req₂.role →
      (mintPayload req₁ now₁).scp = (mintPayload req₂ now₂).scp) := by
  refine ⟨rfl, rfl, fun req now => rfl, ?_, ?_⟩
  · intro r s hs
    cases r <;> simp [scopesFor] at hs <;> tauto
  · intro req₁ req₂ now₁ now₂ h
    simp [mintPayload, h]

/-- Claim C3: any two tokens that fail verification, for whatever different
reasons (wrong secret, expired, mismatched issuer or audience, malformed),
produce the same single 401 "invalid token" outcome from `require_jwt`; no
distinct code or status reveals which check failed. -/
theorem C3_verification_failures_indistinguishable (tok₁ tok₂ : Token)
    (now₁ now₂ : Nat)
    (h₁ : ∃ e, jwt_decode tok₁ JWT_SECRET JWT_ALG JWT_AUDIENCE JWT_ISSUER now₁ =
      Except.error e)
    (h₂ : ∃ e, jwt_decode tok₂ JWT_SECRET JWT_ALG JWT_AUDIENCE JWT_ISSUER now₂ =
      Except.error e) :
    require_jwt (some tok₁) now₁ = Except.error ⟨401, "invalid token"⟩ ∧
    require_jwt (some tok₁) now₁ = require_jwt (some tok₂) now₂ := by
  obtain ⟨e₁, he₁⟩ := h₁
  obtain ⟨e₂, he₂⟩ := h₂
  constructor
  · simp [require_jwt, he₁]
  · simp [require_jwt, he₁, he₂]

/-- Witness for C3: a token signed with the wrong secret and a malformed
token fail for different reasons yet yield identical outcomes. -/
theorem C3_verification_failures_indistinguishable_witness :
    (∃ e, jwt_decode (Token.signed (mintPayload ⟨"ola", "pass", Role.reader⟩ 0)
        "other-secret" JWT_ALG) JWT_SECRET JWT_ALG JWT_AUDIENCE JWT_ISSUER 0 =
      Except.error e) ∧
    (∃ e, jwt_decode Token.malformed JWT_SECRET JWT_ALG JWT_AUDIENCE JWT_ISSUER 5 =
      Except.error e) ∧
    (require_jwt (some (Token.signed (mintPayload ⟨"ola", "pass", Role.reader⟩ 0)
        "other-secret" JWT_ALG)) 0 = Except.error ⟨401, "invalid token"⟩ ∧
     require_jwt (some (Token.signed (mintPayload ⟨"ola", "pass", Role.reader⟩ 0)
        "other-secret" JWT_ALG)) 0 = require_jwt (some Token.malformed) 5) :=
  ⟨⟨VerificationError.badSignature, rfl⟩, ⟨VerificationError.malformed, rfl⟩,
   C3_verification_failures_indistinguishable _ _ 0 5
     ⟨VerificationError.badSignature, rfl⟩
     ⟨VerificationError.malformed, rfl⟩⟩

/-- Claim C4: `require_context`, as a function of the two headers only,
allows exactly when the device-trust header equals "managed" and the risk
header is absent or any value other than "high"; a missing, empty or
non-"managed" device header denies with the device error, and with a
"managed" device header an explicit "high" risk value denies with the risk
error. -/
theorem C4_contextual_trust_truth_table (d r : Option String) :
    (require_context d r = Except.ok true ↔ (d = some "managed" ∧ r ≠ some "high")) ∧
    (d ≠ some "managed" →
      require_context d r =
        Except.error ⟨403, "device not compliant (expected X-Device-Trust: managed)"⟩) ∧
    (d = some "managed" → r = some "high" →
      require_context d r =
        Except.error ⟨403, "risk too high (expected X-Risk != high)"⟩) := by
  refine ⟨?_, ?_, ?_⟩
  · constructor
    · intro h
      by_cases hd : d = some "managed"
      · by_cases hr : r = some "high"
        · simp [require_context, hd, hr] at h
        · exact ⟨hd, hr⟩
      · simp [require_context, hd] at h
    · rintro ⟨hd, hr⟩
      simp [require_context, hd, hr]
  · intro hd
    simp [require_context, hd]
  · intro hd hr
    simp [require_context, hd, hr]

/-- Witness for C2 at concrete inputs. -/
theorem C2_scopes_pure_function_of_role_witness :
    scopesFor Role.reader = ["orders:read"] ∧
    scopesFor Role.admin = ["orders:read", "orders:write"] ∧
    (mintPayload ⟨"a", "b", Role.admin⟩ 7).scp = scopesFor Role.admin :=
  ⟨C2_scopes_pure_function_of_role.1, C2_scopes_pure_function_of_role.2.1,
   C2_scopes_pure_function_of_role.2.2.1 ⟨"a", "b", Role.admin⟩ 7⟩

/-- Witness for C4 at concrete inputs: managed device with no risk header
allows; missing device header denies with the device error; managed device
with high risk denies with the risk error. -/
theorem C4_contextual_trust_truth_table_witness :
    require_context (some "managed") none = Except.ok true ∧
    require_context none (some "low") =
      Except.error ⟨403, "device not compliant (expected X-Device-Trust: managed)"⟩ ∧
    require_context (some "managed") (some "high") =
      Except.error ⟨403, "risk too high (expected X-Risk != high)"⟩ :=
  ⟨(C4_contextual_trust_truth_table (some "managed") none).1.mpr ⟨rfl, by decide⟩,
   (C4_contextual_trust_truth_table none (some "low")).2.1 (by decide),
   (C4_contextual_trust_truth_table (some "managed") (some "high")).2.2 rfl rfl⟩

/-- Claim C5: predicates run in the fixed order authentication, then scope
or role per the resource, then contextual trust; the first failing
predicate determines the denial and later predicates are not consulted (for
any header values, an authentication failure yields the authentication
error, and a scope failure yields the scope error); in particular a request
with both a missing scope and non-compliant headers is denied with the
missing-scope 403, not the context 403. -/
theorem C5_short_circuit_order (req : EnforcementRequest) (now : Nat)
    (orders : List Order) :
    (∀ e, require_jwt req.creds now = Except.error e →
      list_orders req now orders = Except.error e ∧
      (create_order req now orders).1 = Except.error e ∧
      admin_audit req now = Except.error e) ∧
    (∀ e, require_scope "orders:read" req.creds now = Except.error e →
      list_orders req now orders = Except.error e) ∧
    (∀ e, require_scope "orders:write" req.creds now = Except.error e →
      (create_order req now orders).1 = Except.error e) ∧
    (∀ e, require_role "admin" req.creds now = Except.error e →
      admin_audit req now = Except.error e) ∧
    (∀ user, require_jwt req.creds now = Except.ok user →
      "orders:write" ∉ user.scp →
      (create_order req now orders).1 =
        Except.error ⟨403, "missing scope: orders:write"⟩) := by
  refine ⟨?_, ?_, ?_, ?_, ?_⟩
  · intro e he
    exact ⟨by simp [list_orders, require_scope, he],
      by simp [create_order, require_scope, he],
      by simp [admin_audit, require_role, he]⟩
  · intro e he; simp [list_orders, he]
  · intro e he; simp [create_order, he]
  · intro e he; simp [admin_audit, he]
  · intro user hj hs
    simp [create_order, require_scope, hj, hs]

/-- Witness for C5: a reader token on the write endpoint with an absent
device-trust header is denied for the missing scope, not for the context. -/
theorem C5_short_circuit_order_witness :
    require_jwt (some sampleReaderToken) 0 =
      Except.ok (mintPayload ⟨"ola", "pass", Role.reader⟩ 0) ∧
    "orders:write" ∉ (mintPayload ⟨"ola", "pass", Role.reader⟩ 0).scp ∧
    (create_order ⟨some sampleReaderToken, none, some "high"⟩ 0 ORDERS_INIT).1 =
      Except.error ⟨403, "missing scope: orders:write"⟩ :=
  ⟨rfl, by decide,
   (C5_short_circuit_order ⟨some sampleReaderToken, none, some "high"⟩ 0
      ORDERS_INIT).2.2.2.2 (mintPayload ⟨"ola", "pass", Role.reader⟩ 0) rfl
      (by decide)⟩

/-- Claim C6: every denied enforcement request surfaces exactly one denial
error, whose status is 401 exactly when the token was missing or failed
verification, and 403 for every other denial (missing scope, wrong role,
untrusted context). -/
theorem C6_denial_status_mapping (req : EnforcementRequest) (now : Nat)
    (orders : List Order) :
    (∀ e, list_orders req now orders = Except.error e →
      (e.status_code = 401 ∨ e.status_code = 403) ∧
      (e.status_code = 401 ↔ ∃ e2, require_jwt req.creds now = Except.error e2)) ∧
    (∀ e, (create_order req now orders).1 = Except.error e →
      (e.status_code = 401 ∨ e.status_code = 403) ∧
      (e.status_code = 401 ↔ ∃ e2, require_jwt req.creds now = Except.error e2)) ∧
    (∀ e, admin_audit req now = Except.error e →
      (e.status_code = 401 ∨ e.status_code = 403) ∧
      (e.status_code = 401 ↔ ∃ e2, require_jwt req.creds now = Except.error e2)) := by
  have step : ∀ e : HTTPError,
      ((require_jwt req.creds now = Except.error e ∧ e.status_code = 401) ∨
       ((∃ u, require_jwt req.creds now = Except.ok u) ∧ e.status_code = 403)) →
      (e.status_code = 401 ∨ e.status_code = 403) ∧
      (e.status_code = 401 ↔ ∃ e2, require_jwt req.creds now = Except.error e2) := by
    intro e h
    rcases h with ⟨hj, h401⟩ | ⟨⟨u, hj⟩, h403⟩
    · exact ⟨Or.inl h401, ⟨fun _ => ⟨e, hj⟩, fun _ => h401⟩⟩
    · refine ⟨Or.inr h403, ⟨fun h401 => ?_, fun ⟨e2, he2⟩ => ?_⟩⟩
      · rw [h403] at h401; exact absurd h401 (by decide)
      · rw [hj] at he2; exact absurd he2 (by simp)
  refine ⟨?_, ?_, ?_⟩
  · intro e he; exact step e (list_orders_error_analysis req now orders e he)
  · intro e he; exact step e (create_order_error_analysis req now orders e he)
  · intro e he; exact step e (admin_audit_error_analysis req now e he)

/-- Witness for C6: a request with no bearer token is denied by GET /orders
with a 401, and the iff holds at that input. -/
theorem C6_denial_status_mapping_witness :
    list_orders ⟨none, none, none⟩ 0 ORDERS_INIT =
      Except.error ⟨401, "missing bearer token"⟩ ∧
    (((⟨401, "missing bearer token"⟩ : HTTPError).status_code = 401 ∨
      (⟨401, "missing bearer token"⟩ : HTTPError).status_code = 403) ∧
     ((⟨401, "missing bearer token"⟩ : HTTPError).status_code = 401 ↔
       ∃ e2, require_jwt (none : Option Token) 0 = Except.error e2)) :=
  ⟨rfl,
   (C6_denial_status_mapping ⟨none, none, none⟩ 0 ORDERS_INIT).1
     ⟨401, "missing bearer token"⟩ rfl⟩

/-- Claim C7: a denied POST to the write-orders resource appends nothing to
the order list (and, the result being an error, produces no created order
identifier). -/
theorem C7_denied_write_preserves_orders (req : EnforcementRequest) (now : Nat)
    (orders : List Order) (e : HTTPError)
    (h : (create_order req now orders).1 = Except.error e) :
    (create_order req now orders).2 = orders := by
  unfold create_order at h ⊢
  cases hs : require_scope "orders:write" req.creds now with
  | error e2 => simp [hs]
  | ok user =>
    cases hc : require_context req.x_device_trust req.x_risk with
    | error e2 => simp [hc]
    | ok b => simp [hs, hc] at h

/-- Witness for C7: a POST with no bearer token is denied and leaves the
initial order list unchanged. -/
theorem C7_denied_write_preserves_orders_witness :
    (create_order ⟨none, none, none⟩ 0 ORDERS_INIT).1 =
      Except.error ⟨401, "missing bearer token"⟩ ∧
    (create_order ⟨none, none, none⟩ 0 ORDERS_INIT).2 = ORDERS_INIT :=
  ⟨rfl, C7_denied_write_preserves_orders ⟨none, none, none⟩ 0 ORDERS_INIT
    ⟨401, "missing bearer token"⟩ rfl⟩

/-- Claim C8: issuance succeeds iff the supplied password equals "pass"; on
success the username is placed verbatim as the subject, and on failure the
issuer returns 401 "invalid credentials" and no token. -/
theorem C8_issuance_iff_password (req : LoginRequest) (now : Nat) :
    (req.password = "pass" →
      token req now = Except.ok ⟨jwt_encode (mintPayload req now) JWT_SECRET JWT_ALG,
        "bearer", JWT_TTL_SECONDS⟩ ∧
      (mintPayload req now).sub = req.username) ∧
    (req.password ≠ "pass" →
      token req now = Except.error ⟨401, "invalid credentials"⟩) := by
  constructor
  · intro hp; exact ⟨by simp [token, hp], rfl⟩
  · intro hp; simp [token, hp]

/-- Witness for C8 at concrete inputs. -/
theorem C8_issuance_iff_password_witness :
    token ⟨"ola", "pass", Role.reader⟩ 0 =
      Except.ok ⟨jwt_encode (mintPayload ⟨"ola", "pass", Role.reader⟩ 0) JWT_SECRET JWT_ALG,
        "bearer", JWT_TTL_SECONDS⟩ ∧
    token ⟨"ola", "wrong", Role.reader⟩ 0 =
      Except.error ⟨401, "invalid credentials"⟩ :=
  ⟨((C8_issuance_iff_password ⟨"ola", "pass", Role.reader⟩ 0).1 rfl).1,
   (C8_issuance_iff_password ⟨"ola", "wrong", Role.reader⟩ 0).2 (by decide)⟩

/-- Claim C9: every minted claim set has issued-at = now, expires-at =
now + TTL (hence expires-at > issued-at), the fixed issuer, audience and
tenant constants; the TTL constant is 600 seconds and the issuance
response's expires_in equals it. -/
theorem C9_mint_invariants (req : LoginRequest) (now : Nat) :
    (mintPayload req now).iat = now ∧
    (mintPayload req now).exp = now + JWT_TTL_SECONDS ∧
    (mintPayload req now).iat < (mintPayload req now).exp ∧
    (mintPayload req now).iss = JWT_ISSUER ∧
    (mintPayload req now).aud = JWT_AUDIENCE ∧
    (mintPayload req now).tenant = "demo-tenant" ∧
    JWT_TTL_SECONDS = 600 ∧
    ∀ resp, token req now = Except.ok resp → resp.expires_in = JWT_TTL_SECONDS := by
  refine ⟨rfl, rfl, ?_, rfl, rfl, rfl, by decide, ?_⟩
  · simp only [mintPayload, JWT_TTL_SECONDS]
    omega
  · intro resp h
    unfold token at h
    split at h
    · exact absurd h (by simp)
    · simp at h
      subst h
      rfl

/-- Witness for C9 at concrete inputs. -/
theorem C9_mint_invariants_witness :
    (mintPayload ⟨"ola", "pass", Role.admin⟩ 5).iat = 5 ∧
    (mintPayload ⟨"ola", "pass", Role.admin⟩ 5).exp = 5 + JWT_TTL_SECONDS ∧
    (⟨jwt_encode (mintPayload ⟨"ola", "pass", Role.admin⟩ 5) JWT_SECRET JWT_ALG,
       "bearer", JWT_TTL_SECONDS⟩ : TokenResponse).expires_in = JWT_TTL_SECONDS :=
  ⟨(C9_mint_invariants ⟨"ola", "pass", Role.admin⟩ 5).1,
   (C9_mint_invariants ⟨"ola", "pass", Role.admin⟩ 5).2.1,
   (C9_mint_invariants ⟨"ola", "pass", Role.admin⟩ 5).2.2.2.2.2.2.2 _ rfl⟩

/-- Claim C10: at the issuance boundary the role field is optional and
defaults to "reader" when omitted; any role value outside reader/admin is
rejected with a validation error before the authentication check runs
(whatever the password); and every minted claim set's role is either
"reader" or "admin". -/
theorem C10_role_validation (raw : RawLoginBody) (now : Nat) :
    (raw.role = none →
      parseLoginRequest raw = Except.ok ⟨raw.username, raw.password, Role.reader⟩) ∧
    (∀ s, raw.role = some s → s ≠ "reader" → s ≠ "admin" →
      handle_token raw now = TokenEndpointResult.validationError) ∧
    (∀ req now2, (mintPayload req now2).role = "reader" ∨
      (mintPayload req now2).role = "admin") := by
  refine ⟨?_, ?_, ?_⟩
  · intro h; simp [parseLoginRequest, h]
  · intro s hs h1 h2
    simp [handle_token, parseLoginRequest, hs, h1, h2]
  · intro req now2
    cases h : req.role with
    | reader => left; simp [mintPayload, h, Role.toString]
    | admin => right; simp [mintPayload, h, Role.toString]

/-- Witness for C10: a missing role parses as reader; an unknown role with
a wrong password is rejected by validation, not by the password check; a
minted admin payload's role is reader or admin. -/
theorem C10_role_validation_witness :
    parseLoginRequest ⟨"ola", "pass", none⟩ =
      Except.ok ⟨"ola", "pass", Role.reader⟩ ∧
    handle_token ⟨"ola", "wrong", some "root"⟩ 0 =
      TokenEndpointResult.validationError ∧
    ((mintPayload ⟨"ola", "pass", Role.admin⟩ 0).role = "reader" ∨
     (mintPayload ⟨"ola", "pass", Role.admin⟩ 0).role = "admin") :=
  ⟨(C10_role_validation ⟨"ola", "pass", none⟩ 0).1 rfl,
   (C10_role_validation ⟨"ola", "wrong", some "root"⟩ 0).2.1 "root" rfl
     (by decide) (by decide),
   (C10_role_validation ⟨"ola", "pass", none⟩ 0).2.2 ⟨"ola", "pass", Role.admin⟩ 0⟩

end ZeroTrust
